import Mathlib

/-!
Shallow embedding of the appointment-scheduling and call-relay code of the
ai-assistant repository.

Sources embedded here:
* src/src/lib/services/booking.js  (the shared booking service: the functions
  named with suffix _lib below)
* src/websocket-server/src/handlers/mediaStreamHandler.js  (the Twilio relay:
  functions with suffix _ws and the stepTwilio machine)
* src/websocket-server/src/handlers/exotelStreamHandler.js  (the Exotel relay:
  the stepExotel machine; its local copies of the scheduling tool functions are
  line-for-line the same as the mediaStreamHandler copies, so the _ws functions
  embed both)

Modelling conventions:
* A calendar date is a natural number counting days from 1970-01-01, so the
  JavaScript getDay() weekday index of day d is (d + 4) % 7 (day 0 was a
  Thursday).  A timestamp is a natural number of minutes, day * 1440 plus the
  minutes within the day; the ISO day bounds T00:00:00 and T23:59:59 used in
  range queries become d * 1440 and d * 1440 + 1439 at minute granularity.
* The record store is an explicit Database value and each supabase query is
  the corresponding filter, find or map over its tables; inserts take fresh
  ids from a nextId counter and always succeed (storage-engine failures are
  outside the model).  The timezone shift applied by fromZonedTime in the
  library booking path is modelled at offset zero; none of the verified
  properties depend on the offset.
* JavaScript null-or-number fields are Option Nat and the idiom x || d is
  jsOrNat (0 and null are both falsy).  A thrown exception is Except.error
  and a try/catch block is a match on it.
* The expression new Date(d).toLocaleDateString with the option value
  lowercase for the weekday field throws a RangeError under ECMA-402 (the
  allowed values are narrow, short and long), so its embedding is the
  function that always returns Except.error.
-/

namespace AiAssistant

/-- JS idiom x || d for a number field that may be null: 0 and null are falsy. -/
def jsOrNat (x : Option Nat) (d : Nat) : Nat :=
  match x with
  | some v => if v = 0 then d else v
  | none => d

/-- Decimal accumulator over a character list, for the Number() embedding on
the digit strings produced by splitting an HH:MM literal. -/
def charsToNat : List Char → Nat → Nat
  | [], n => n
  | c :: cs, n => charsToNat cs (n * 10 + (c.toNat - 48))

/-- Number(s) for the digit strings produced by splitting an HH:MM literal. -/
def numOf (s : String) : Nat := charsToNat s.data 0

/-- Splits a character list at each colon character. -/
def splitAtColon : List Char → List Char → List (List Char)
  | [], acc => [acc.reverse]
  | c :: cs, acc =>
    if c == ':' then acc.reverse :: splitAtColon cs []
    else splitAtColon cs (c :: acc)

/-- Embeds the HH:MM parsing idiom: split on the colon, map Number, then
h * 60 + m.  Strings that are not of that shape play no role in the claims. -/
def clockToMinutes (s : String) : Nat :=
  match (splitAtColon s.data []).map (fun cs => charsToNat cs 0) with
  | [h, m] => h * 60 + m
  | _ => 0

/-- String(n).padStart(2, the zero digit). -/
def pad2 (n : Nat) : String :=
  let s := toString n
  if s.length < 2 then "0" ++ s else s

/-- The HH:MM slot label built in the slot loop from a minutes-of-day value. -/
def fmtClock (m : Nat) : String :=
  pad2 (m / 60) ++ ":" ++ pad2 (m % 60)

/-- The days array of booking.js, indexed by the JS getDay() result. -/
def days : List String :=
  ["sunday", "monday", "tuesday", "wednesday", "thursday", "friday", "saturday"]

/-- days[new Date(d).getDay()] for a day index d (day 0, 1970-01-01, was a Thursday). -/
def dayOfWeekName (d : Nat) : String :=
  days.getD ((d + 4) % 7) ""

/-- new Date(d).toLocaleDateString with weekday set to the invalid option value
lowercase: ECMA-402 GetOption rejects it, so the call throws a RangeError. -/
def toLocaleWeekdayLowercase (_d : Nat) : Except String String :=
  Except.error "RangeError: invalid value for option weekday"

/-- One weekday entry of the working_hours JSON blob. -/
structure DayHours where
  enabled : Bool
  start : String
  end_ : String
deriving DecidableEq

/-- The columns of the businesses row that the embedded functions read. -/
structure Business where
  id : Nat
  working_hours : List (String × DayHours)
  slot_duration_minutes : Option Nat
  buffer_minutes : Option Nat
deriving DecidableEq

/-- An appointments row. -/
structure Appointment where
  id : Nat
  business_id : Nat
  customer_id : Option Nat
  service_id : Option Nat
  call_id : Option Nat
  customer_name : String
  customer_phone : String
  scheduled_at : Nat
  duration_minutes : Option Nat
  status : String
  notes : Option String
deriving DecidableEq

/-- A customers row. -/
structure Customer where
  id : Nat
  business_id : Nat
  phone : String
  name : String
deriving DecidableEq

/-- A services row. -/
structure Service where
  id : Nat
  business_id : Nat
  name : String
  duration_minutes : Option Nat
deriving DecidableEq

/-- A calls row, reduced to the columns the tool functions write. -/
structure CallRow where
  id : Nat
  outcome : Option String
  intent_detected : Option String
deriving DecidableEq

/-- The record store: one list per table plus a fresh-id counter for inserts. -/
structure Database where
  businesses : List Business
  appointments : List Appointment
  customers : List Customer
  services : List Service
  blackout_dates : List (Nat × Nat)
  calls : List CallRow
  nextId : Nat
deriving DecidableEq

/-- The untyped JS result object returned by the tool functions; absent keys
are none. -/
structure JsResult where
  success : Option Bool := none
  error : Option String := none
  message : Option String := none
  available : Option Bool := none
  date : Option Nat := none
  slots : Option (List String) := none
  appointment_id : Option Nat := none
  cancelled_count : Option Nat := none
deriving DecidableEq

/-- businesses select single by id. -/
def findBusiness (db : Database) (businessId : Nat) : Option Business :=
  db.businesses.find? (fun b => b.id == businessId)

/-- blackout_dates select single by business_id and date. -/
def isBlackout (db : Database) (businessId date : Nat) : Bool :=
  (db.blackout_dates.find? (fun p => p.1 == businessId && p.2 == date)).isSome

/-- The appointments query of both checkAvailability copies: rows of the
business whose scheduled_at lies in the day and whose status is confirmed or
pending. -/
def apptsForDay (db : Database) (businessId date : Nat) : List Appointment :=
  db.appointments.filter (fun a =>
    a.business_id == businessId &&
    decide (date * 1440 ≤ a.scheduled_at) &&
    decide (a.scheduled_at ≤ date * 1440 + 1439) &&
    (a.status == "confirmed" || a.status == "pending"))

/-- The conflict test inside the slot loop: half-open interval overlap of the
candidate slot against one appointment, with the appointment duration
defaulting to 30. -/
def slotConflicts (slotStart slotEnd : Nat) (a : Appointment) : Bool :=
  let aptStart := a.scheduled_at
  let aptEnd := aptStart + jsOrNat a.duration_minutes 30
  decide (slotStart < aptEnd) && decide (slotEnd > aptStart)

/-- The while loop shared by booking.js checkAvailability and both handler
copies: walk from the window start in steps of slotDuration + buffer, keep a
candidate when it fits before endMinutes and conflicts with no appointment.
The fuel argument bounds the recursion; callers pass endMinutes + 1, enough
for every positive step (slotDuration is produced by jsOrNat so it is never
zero at any call site, matching the JS loop which would not terminate
otherwise). -/
def slotWalk (fuel slotDuration buffer endMinutes dayBase : Nat)
    (appts : List Appointment) (current : Nat) : List Nat :=
  match fuel with
  | 0 => []
  | f + 1 =>
    if current + slotDuration ≤ endMinutes then
      let slotStart := dayBase + current
      let slotEnd := slotStart + slotDuration
      let hasConflict := appts.any (slotConflicts slotStart slotEnd)
      let rest := slotWalk f slotDuration buffer endMinutes dayBase appts
        (current + slotDuration + buffer)
      if hasConflict then rest else current :: rest
    else []

/-- The minute values of the generated slots for one business day, factored
out of checkAvailability so that theorems can name it. -/
def slotMinutesFor (db : Database) (businessId date : Nat) (business : Business)
    (dayHours : DayHours) : List Nat :=
  let appts := apptsForDay db businessId date
  let slotDuration := jsOrNat business.slot_duration_minutes 30
  let buffer := jsOrNat business.buffer_minutes 10
  let startMinutes := clockToMinutes dayHours.start
  let endMinutes := clockToMinutes dayHours.end_
  slotWalk (endMinutes + 1) slotDuration buffer endMinutes (date * 1440) appts startMinutes

/-- The availability summary string of booking.js. -/
def availMessageLib (slots : List String) : String :=
  if slots.length > 0 then
    "Available times: " ++ String.intercalate ", " (slots.take 5) ++
      (if slots.length > 5 then " and " ++ toString (slots.length - 5) ++ " more" else "")
  else "No available slots on this date."

/-- checkAvailability of src/src/lib/services/booking.js. -/
def checkAvailability_lib (db : Database) (businessId date : Nat) : JsResult :=
  match findBusiness db businessId with
  | none =>
    { error := some "Business not found", available := some false, slots := some [] }
  | some business =>
    if isBlackout db businessId date then
      { available := some false, message := some "Sorry, we are closed on this date.",
        slots := some [] }
    else
      let dayOfWeek := dayOfWeekName date
      match (business.working_hours.find? (fun p => p.1 == dayOfWeek)).map (fun p => p.2) with
      | none =>
        { available := some false,
          message := some ("Sorry, we are closed on " ++ dayOfWeek ++ "s."),
          slots := some [] }
      | some dayHours =>
        if !dayHours.enabled then
          { available := some false,
            message := some ("Sorry, we are closed on " ++ dayOfWeek ++ "s."),
            slots := some [] }
        else
          let slots := (slotMinutesFor db businessId date business dayHours).map fmtClock
          { available := some (decide (slots.length > 0)), date := some date,
            slots := some slots, message := some (availMessageLib slots) }

/-- JS idiom x || null for an optional string field: the empty string is falsy. -/
def jsStrOrNull (x : Option String) : Option String :=
  match x with
  | some s => if s = "" then none else some s
  | none => none

/-- The availability summary string of the handler copies, which mentions the date. -/
def availMessageWs (date : Nat) (slots : List String) : String :=
  if slots.length > 0 then
    "Available times on " ++ toString date ++ ": " ++
      String.intercalate ", " (slots.take 5) ++
      (if slots.length > 5 then " and " ++ toString (slots.length - 5) ++ " more" else "")
  else "No available slots on this date."

/-- The body of checkAvailability in mediaStreamHandler.js and
exotelStreamHandler.js, before its surrounding try/catch.  The weekday is
computed with toLocaleDateString and the invalid option value lowercase, which
throws, so for every non-blackout date with a known business the body raises
and the code below that line never runs. -/
def checkAvailabilityBody_ws (db : Database) (businessId date : Nat) :
    Except String JsResult :=
  match findBusiness db businessId with
  | none => Except.ok { error := some "Business not found" }
  | some business =>
    let appointments := apptsForDay db businessId date
    if isBlackout db businessId date then
      Except.ok { available := some false,
                  message := some "Sorry, we are closed on this date.", slots := some [] }
    else
      match toLocaleWeekdayLowercase date with
      | Except.error e => Except.error e
      | Except.ok dayOfWeek =>
      match (business.working_hours.find? (fun p => p.1 == dayOfWeek)).map (fun p => p.2) with
      | none =>
        Except.ok { available := some false,
                    message := some "Sorry, we are closed on this day.", slots := some [] }
      | some dayHours =>
        if !dayHours.enabled then
          Except.ok { available := some false,
                      message := some "Sorry, we are closed on this day.", slots := some [] }
        else
          let slotDuration := jsOrNat business.slot_duration_minutes 30
          let buffer := jsOrNat business.buffer_minutes 10
          let startMinutes := clockToMinutes dayHours.start
          let endMinutes := clockToMinutes dayHours.end_
          let slots := (slotWalk (endMinutes + 1) slotDuration buffer endMinutes
            (date * 1440) appointments startMinutes).map fmtClock
          Except.ok { available := some (decide (slots.length > 0)), date := some date,
                      slots := some slots, message := some (availMessageWs date slots) }

/-- checkAvailability of the handlers: the body wrapped in its try/catch. -/
def checkAvailability_ws (db : Database) (businessId date : Nat) : JsResult :=
  match checkAvailabilityBody_ws db businessId date with
  | Except.ok r => r
  | Except.error _ => { error := some "Failed to check availability" }

/-- The argument object of a book_appointment tool call. -/
structure BookArgs where
  customer_name : String
  customer_phone : String
  date : Nat
  time : String
  service : Option String
  notes : Option String
deriving DecidableEq

/-- The call-outcome update issued after a successful handler booking, guarded
by the callId being present. -/
def updateCallOutcome (db : Database) (callId : Option Nat)
    (outcome intent : String) : Database :=
  match callId with
  | none => db
  | some cid =>
    { db with calls := db.calls.map (fun c =>
        if c.id == cid then { c with outcome := some outcome, intent_detected := some intent }
        else c) }

/-- bookAppointment of mediaStreamHandler.js and exotelStreamHandler.js: find
or create the customer, then insert the appointment directly, with no
availability re-check, no service lookup and no duration column. -/
def bookAppointment_ws (db : Database) (businessId : Nat) (callId : Option Nat)
    (args : BookArgs) : Database × JsResult :=
  let found := db.customers.find? (fun c =>
    c.business_id == businessId && c.phone == args.customer_phone)
  let (db1, customerId) : Database × Option Nat :=
    match found with
    | some c => (db, some c.id)
    | none =>
      ({ db with
          customers := db.customers ++
            [{ id := db.nextId, business_id := businessId,
               phone := args.customer_phone, name := args.customer_name }],
          nextId := db.nextId + 1 }, some db.nextId)
  let scheduledAt := args.date * 1440 + clockToMinutes args.time
  let appt : Appointment :=
    { id := db1.nextId, business_id := businessId, customer_id := customerId,
      service_id := none, call_id := callId, customer_name := args.customer_name,
      customer_phone := args.customer_phone, scheduled_at := scheduledAt,
      duration_minutes := none, status := "confirmed", notes := jsStrOrNull args.notes }
  let db2 := { db1 with appointments := db1.appointments ++ [appt], nextId := db1.nextId + 1 }
  let db3 := updateCallOutcome db2 callId "booked" "book_appointment"
  (db3,
    { success := some true,
      message := some ("Appointment confirmed for " ++ args.customer_name ++
        " on " ++ toString args.date ++ " at " ++ args.time),
      appointment_id := some appt.id })

/-- ASCII lowercase of one character, for the case-insensitive ilike embedding. -/
def lowerChar (c : Char) : Char :=
  if 65 ≤ c.toNat && c.toNat ≤ 90 then Char.ofNat (c.toNat + 32) else c

/-- The character list of a string, lowercased. -/
def lowerStr (s : String) : List Char := s.data.map lowerChar

/-- Boolean prefix test on character lists, used for the ilike embedding. -/
def listIsPrefixOf : List Char → List Char → Bool
  | [], _ => true
  | _ :: _, [] => false
  | a :: as, b :: bs => a == b && listIsPrefixOf as bs

/-- Boolean contiguous-substring test on character lists. -/
def listIsInfixOf (needle : List Char) : List Char → Bool
  | [] => needle.isEmpty
  | b :: bs => listIsPrefixOf needle (b :: bs) || listIsInfixOf needle bs

/-- The service lookup of booking.js bookAppointment: ilike on the name with
wildcards on both sides, so a case-insensitive substring match; skipped when
no service string (or an empty one, falsy in JS) was supplied. -/
def fuzzyServiceId (services : List Service) (businessId : Nat) (service : Option String) : Option Nat :=
  match service with
  | none => none
  | some s =>
    if s = "" then none
    else
      (services.find? (fun sv =>
        sv.business_id == businessId &&
        listIsInfixOf (lowerStr s) (lowerStr sv.name))).map (fun sv => sv.id)

/-- The part of booking.js bookAppointment after the availability
re-validation passed: upsert the customer refreshing the name, resolve the
optional service, and insert with the business slot duration. -/
def bookAppointmentInsert_lib (db : Database) (businessId : Nat) (args : BookArgs)
    (callId : Option Nat) : Database × JsResult :=
  let found := db.customers.find? (fun c =>
    c.business_id == businessId && c.phone == args.customer_phone)
  let (db1, customerId) : Database × Option Nat :=
    match found with
    | some c =>
      ((if args.customer_name ≠ "" then
          { db with customers := db.customers.map (fun x =>
              if x.id == c.id then { x with name := args.customer_name } else x) }
        else db), some c.id)
    | none =>
      ({ db with
          customers := db.customers ++
            [{ id := db.nextId, business_id := businessId,
               phone := args.customer_phone, name := args.customer_name }],
          nextId := db.nextId + 1 }, some db.nextId)
  let serviceId := fuzzyServiceId db1.services businessId args.service
  let business := findBusiness db1 businessId
  let scheduledAt := args.date * 1440 + clockToMinutes args.time
  let appt : Appointment :=
    { id := db1.nextId, business_id := businessId, customer_id := customerId,
      service_id := serviceId, call_id := callId,
      customer_name := args.customer_name, customer_phone := args.customer_phone,
      scheduled_at := scheduledAt,
      duration_minutes := some (jsOrNat (business.bind (fun b => b.slot_duration_minutes)) 30),
      status := "confirmed", notes := jsStrOrNull args.notes }
  let db2 := { db1 with appointments := db1.appointments ++ [appt], nextId := db1.nextId + 1 }
  (db2,
    { success := some true,
      message := some ("Appointment confirmed for " ++ args.customer_name ++
        " on " ++ toString args.date ++ " at " ++ args.time),
      appointment_id := some appt.id })

/-- bookAppointment of src/src/lib/services/booking.js: re-validate the slot
against a fresh availability result and refuse when the requested time is not
in it; otherwise proceed with the insert part above. -/
def bookAppointment_lib (db : Database) (businessId : Nat) (args : BookArgs)
    (callId : Option Nat) : Database × JsResult :=
  let availability := checkAvailability_lib db businessId args.date
  if !((availability.slots.getD []).contains args.time) then
    (db, { success := some false,
           error := some "This time slot is no longer available. Please choose another time." })
  else
    bookAppointmentInsert_lib db businessId args callId

/-- When the requested time is in the fresh availability result, the library
booking proceeds to the insert part. -/
theorem bookAppointment_lib_of_mem (db : Database) (businessId : Nat) (args : BookArgs)
    (callId : Option Nat)
    (h : args.time ∈ (checkAvailability_lib db businessId args.date).slots.getD []) :
    bookAppointment_lib db businessId args callId =
      bookAppointmentInsert_lib db businessId args callId := by
  unfold bookAppointment_lib
  rw [if_neg]
  simp [h]

/-- The argument object of a cancel_appointment tool call. -/
structure CancelArgs where
  customer_phone : String
  date : Option Nat
deriving DecidableEq

/-- The row filter of the handler cancelAppointment update query: same
business, same phone, status confirmed, optionally inside the 00:00 to 23:59
window of the given date. -/
def cancelMatches (businessId : Nat) (args : CancelArgs) (a : Appointment) : Bool :=
  a.business_id == businessId &&
  a.customer_phone == args.customer_phone &&
  a.status == "confirmed" &&
  (match args.date with
   | none => true
   | some d => decide (d * 1440 ≤ a.scheduled_at) && decide (a.scheduled_at ≤ d * 1440 + 1439))

/-- cancelAppointment of mediaStreamHandler.js and exotelStreamHandler.js: the
update query runs, then zero matched rows is reported as an explicit failure. -/
def cancelAppointment_ws (db : Database) (businessId : Nat) (args : CancelArgs) :
    Database × JsResult :=
  let matched := db.appointments.filter (cancelMatches businessId args)
  let db1 := { db with appointments := db.appointments.map (fun a =>
    if cancelMatches businessId args a then { a with status := "cancelled" } else a) }
  if matched.length = 0 then
    (db1, { success := some false, message := some "No appointment found to cancel" })
  else
    (db1, { success := some true, message := some "Appointment cancelled successfully",
            cancelled_count := some matched.length })

/-- cancelAppointment of booking.js restricted to the phone branch (the
appointmentId branch is not reachable from the tool schema): same filter, with
the zero-match case again an explicit failure. -/
def cancelAppointment_lib (db : Database) (businessId : Nat) (args : CancelArgs) :
    Database × JsResult :=
  if args.customer_phone = "" then
    (db, { success := some false, error := some "Please provide appointment ID or customer phone" })
  else
    let matched := db.appointments.filter (cancelMatches businessId args)
    let db1 := { db with appointments := db.appointments.map (fun a =>
      if cancelMatches businessId args a then { a with status := "cancelled" } else a) }
    if matched.length = 0 then
      (db1, { success := some false, error := some "No appointment found to cancel" })
    else
      (db1, { success := some true,
              message := some ("Cancelled " ++ toString matched.length ++ " appointment(s)") })

/-- The raw argument object the model supplies with a function call; the
dispatcher passes it through and each tool reads the keys it needs.  The tool
schema marks the keys read by each tool as required, so the dispatcher
embedding defaults any absent required key. -/
structure RawArgs where
  date : Option Nat := none
  customer_name : Option String := none
  customer_phone : Option String := none
  time : Option String := none
  service : Option String := none
  notes : Option String := none
  reason : Option String := none
deriving DecidableEq

/-- handleToolCall of the handlers: a switch on the tool name.  The codomain
is Except so that a thrown exception would be representable; every branch
calls a tool function that is total because of its own try/catch, so every
branch is Except.ok. -/
def handleToolCall (db : Database) (businessId : Nat) (callId : Option Nat)
    (toolName : String) (args : RawArgs) : Except String (Database × JsResult) :=
  if toolName = "check_availability" then
    Except.ok (db, checkAvailability_ws db businessId (args.date.getD 0))
  else if toolName = "book_appointment" then
    Except.ok (bookAppointment_ws db businessId callId
      { customer_name := args.customer_name.getD "",
        customer_phone := args.customer_phone.getD "",
        date := args.date.getD 0, time := args.time.getD "",
        service := args.service, notes := args.notes })
  else if toolName = "cancel_appointment" then
    Except.ok (cancelAppointment_ws db businessId
      { customer_phone := args.customer_phone.getD "", date := args.date })
  else if toolName = "transfer_to_human" then
    Except.ok (db, { success := some true,
                     message := some "Transferring to human staff. Please hold." })
  else
    Except.ok (db, { error := some "Unknown tool" })

/-- State of the per-call model-endpoint WebSocket, as readyState is observed
by the handlers: created but not yet open, open, or closing after close() was
called. -/
inductive WsConnState
  | connecting
  | open_
  | closing
deriving DecidableEq

/-- The per-call mutable variables of handleMediaStream and handleExotelStream
that the verified claims depend on. -/
structure SessionState where
  streamSid : Option String
  callId : Option Nat
  transcript : List (String × String)
  openaiWs : Option WsConnState
deriving DecidableEq

/-- Inbound events a session reacts to: the provider events of the message
switch, the close of the provider socket, and the open callback of the model
connection.  The start event carries whether the call-record insert returned a
row, since the later writes are guarded by the callId it sets. -/
inductive SessionEvent
  | connected
  | start (streamSid callSid : String) (insertOk : Bool)
  | modelOpen
  | media (payload : Option String)
  | dtmf (digit : String)
  | stop
  | socketClose

/-- The externally visible effects of one event. -/
inductive SessionAction
  | insertCallRecord
  | sendSessionUpdate
  | sendGreeting
  | appendAudioToModel (payload : Option String)
  | finalizeCall (transcript : List (String × String))
  | closeModelConn
deriving DecidableEq

/-- The variable initialisation at the top of both handler functions. -/
def initialSession : SessionState :=
  { streamSid := none, callId := none, transcript := [], openaiWs := none }

/-- JS truthiness of the optional chunk field of an Exotel media frame. -/
def jsTruthy (p : Option String) : Bool :=
  match p with
  | some s => s ≠ ""
  | none => false

/-- One event of handleMediaStream (the Twilio handler).  media frames are
forwarded only when the model socket exists and its readyState is OPEN;
otherwise nothing is sent and nothing is stored.  Both the stop case and the
socket close handler write the call record whenever callId is set; neither
consults any already-finalized flag. -/
def stepTwilio (s : SessionState) (e : SessionEvent) :
    SessionState × List SessionAction :=
  match e with
  | SessionEvent.connected => (s, [])
  | SessionEvent.start sid _ insertOk =>
    ({ s with streamSid := some sid,
              callId := if insertOk then some 1 else none,
              openaiWs := some WsConnState.connecting },
     [SessionAction.insertCallRecord])
  | SessionEvent.modelOpen =>
    (match s.openaiWs with
     | some _ => ({ s with openaiWs := some WsConnState.open_ },
                  [SessionAction.sendSessionUpdate, SessionAction.sendGreeting])
     | none => (s, []))
  | SessionEvent.media p =>
    (match s.openaiWs with
     | some WsConnState.open_ => (s, [SessionAction.appendAudioToModel p])
     | _ => (s, []))
  | SessionEvent.dtmf _ => (s, [])
  | SessionEvent.stop =>
    ((match s.openaiWs with
      | some _ => { s with openaiWs := some WsConnState.closing }
      | none => s),
     (match s.callId with
      | some _ => [SessionAction.finalizeCall s.transcript]
      | none => []) ++
     (match s.openaiWs with
      | some _ => [SessionAction.closeModelConn]
      | none => []))
  | SessionEvent.socketClose =>
    ((match s.openaiWs with
      | some _ => { s with openaiWs := some WsConnState.closing }
      | none => s),
     (match s.openaiWs with
      | some _ => [SessionAction.closeModelConn]
      | none => []) ++
     (match s.callId with
      | some _ => [SessionAction.finalizeCall s.transcript]
      | none => []))

/-- One event of handleExotelStream.  Identical closure behaviour; the media
case additionally requires the chunk field to be present and truthy. -/
def stepExotel (s : SessionState) (e : SessionEvent) :
    SessionState × List SessionAction :=
  match e with
  | SessionEvent.connected => (s, [])
  | SessionEvent.start sid _ insertOk =>
    ({ s with streamSid := some sid,
              callId := if insertOk then some 1 else none,
              openaiWs := some WsConnState.connecting },
     [SessionAction.insertCallRecord])
  | SessionEvent.modelOpen =>
    (match s.openaiWs with
     | some _ => ({ s with openaiWs := some WsConnState.open_ },
                  [SessionAction.sendSessionUpdate, SessionAction.sendGreeting])
     | none => (s, []))
  | SessionEvent.media p =>
    (match s.openaiWs with
     | some WsConnState.open_ =>
       if jsTruthy p then (s, [SessionAction.appendAudioToModel p]) else (s, [])
     | _ => (s, []))
  | SessionEvent.dtmf _ => (s, [])
  | SessionEvent.stop =>
    ((match s.openaiWs with
      | some _ => { s with openaiWs := some WsConnState.closing }
      | none => s),
     (match s.callId with
      | some _ => [SessionAction.finalizeCall s.transcript]
      | none => []) ++
     (match s.openaiWs with
      | some _ => [SessionAction.closeModelConn]
      | none => []))
  | SessionEvent.socketClose =>
    ((match s.openaiWs with
      | some _ => { s with openaiWs := some WsConnState.closing }
      | none => s),
     (match s.openaiWs with
      | some _ => [SessionAction.closeModelConn]
      | none => []) ++
     (match s.callId with
      | some _ => [SessionAction.finalizeCall s.transcript]
      | none => []))

/-- Run a sequence of events through a handler, accumulating actions in order. -/
def runSession (step : SessionState → SessionEvent → SessionState × List SessionAction)
    (s : SessionState) : List SessionEvent → SessionState × List SessionAction
  | [] => (s, [])
  | e :: es =>
    let p := step s e
    let q := runSession step p.1 es
    (q.1, p.2 ++ q.2)

/-- Recognises a call-record finalization write. -/
def isFinalize : SessionAction → Bool
  | SessionAction.finalizeCall _ => true
  | _ => false

/-- How many times a list of actions persists the end timestamp and transcript. -/
def finalizeCount (acts : List SessionAction) : Nat :=
  (acts.filter isFinalize).length

/-! Concrete fixtures used by the claim theorems, their witnesses and their
counterexamples.  Day 4 (1970-01-05) and day 11 (1970-01-12) are Mondays under
the weekday convention above. -/

/-- A Monday working window 09:00 to 17:00. -/
def hoursMonFull : DayHours := { enabled := true, start := "09:00", end_ := "17:00" }

/-- Business 1 with the fixed configuration of the spec scenario: working
window 09:00 to 17:00, slot duration 30, buffer 10. -/
def bizStd : Business :=
  { id := 1, working_hours := [("monday", hoursMonFull)],
    slot_duration_minutes := some 30, buffer_minutes := some 10 }

/-- A store holding only that business, with no appointments and no blackouts. -/
def dbStd : Database :=
  { businesses := [bizStd], appointments := [], customers := [], services := [],
    blackout_dates := [], calls := [], nextId := 100 }

/-- The slot list computed for the spec scenario date. -/
def slotsStd : List String := (checkAvailability_lib dbStd 1 4).slots.getD []

/-- Boolean strictly-increasing test on a list of minute values. -/
def strictlyIncreasing : List Nat → Bool
  | [] => true
  | [_] => true
  | a :: b :: rest => decide (a < b) && strictlyIncreasing (b :: rest)

/-- C3: the claim says the slot sequence for the 09:00 to 17:00, 30 plus 10
configuration ends at 16:30; on the code the candidates step by 40 minutes
from 09:00, so the last kept slot is 16:20, not 16:30. -/
theorem C3_counterexample :
    slotsStd.getLast? = some "16:20" ∧ slotsStd.getLast? ≠ some "16:30" := by
  constructor
  · decide
  · decide

/-- C3 amended: for working window 09:00 to 17:00, slot duration 30 and buffer
10 with no existing appointments, slot generation produces exactly the
chronological 40-minute sequence from 09:00 whose last element is 16:20, with
no slot at 16:40 and none at 16:30. -/
theorem C3_theorem :
    slotsStd = ["09:00", "09:40", "10:20", "11:00", "11:40", "12:20",
                "13:00", "13:40", "14:20", "15:00", "15:40", "16:20"] ∧
    slotsStd.getLast? = some "16:20" ∧
    "16:40" ∉ slotsStd ∧ "16:30" ∉ slotsStd ∧
    strictlyIncreasing (slotsStd.map clockToMinutes) = true := by
  refine ⟨by decide, by decide, by decide, by decide, by decide⟩

/-- A Monday window that is disabled. -/
def hoursMonOff : DayHours := { enabled := false, start := "09:00", end_ := "17:00" }

/-- Business 1 whose Monday hours are disabled. -/
def bizMonOff : Business :=
  { id := 1, working_hours := [("monday", hoursMonOff)],
    slot_duration_minutes := some 30, buffer_minutes := some 10 }

/-- A store where day 11 is a blackout date for business 1 and day 4 is not. -/
def dbClosed : Database :=
  { businesses := [bizMonOff], appointments := [], customers := [], services := [],
    blackout_dates := [(1, 11)], calls := [], nextId := 100 }

/-- C4: on a blackout date both checkAvailability copies return the explicit
closed result with an empty slot list, but on a date whose weekday hours are
disabled the handler copy returns the generic error object instead of the
closed result: its weekday lookup passes the invalid option value lowercase to
toLocaleDateString, which throws, and the catch turns every non-blackout date
into a failure.  The library copy returns the closed result as the claim
states. -/
theorem C4_theorem :
    checkAvailability_ws dbClosed 1 4 = { error := some "Failed to check availability" } ∧
    checkAvailability_lib dbClosed 1 4 =
      { available := some false, message := some "Sorry, we are closed on mondays.",
        slots := some [] } ∧
    isBlackout dbClosed 1 4 = false ∧
    checkAvailability_ws dbClosed 1 11 =
      { available := some false, message := some "Sorry, we are closed on this date.",
        slots := some [] } ∧
    checkAvailability_lib dbClosed 1 11 =
      { available := some false, message := some "Sorry, we are closed on this date.",
        slots := some [] } := by
  refine ⟨by decide, by decide, by decide, by decide, by decide⟩

/-- C2: the claim says finalization runs at most once per call; in the code
the stop case and the socket close handler each write the call record, so the
trace start, stop, close performs two finalization writes. -/
theorem C2_counterexample :
    finalizeCount (runSession stepTwilio initialSession
      [SessionEvent.start "MZ1" "CA1" true, SessionEvent.stop,
       SessionEvent.socketClose]).2 = 2 := by
  decide

/-- C2 amended: each closure path persists the end timestamp and transcript
whenever the call-record id is set; when the provider stop event and the
socket close both fire, both handlers write the call record twice, since
neither keeps an already-finalized flag. -/
theorem C2_theorem (s : SessionState) (i : Nat) (h : s.callId = some i) :
    finalizeCount (runSession stepTwilio s
      [SessionEvent.stop, SessionEvent.socketClose]).2 = 2 ∧
    finalizeCount (runSession stepExotel s
      [SessionEvent.stop, SessionEvent.socketClose]).2 = 2 := by
  cases hw : s.openaiWs <;>
    simp [runSession, stepTwilio, stepExotel, finalizeCount, isFinalize, h, hw]

/-- C2 witness: the amended theorem applied to the state reached after a
successful start event. -/
theorem C2_witness :
    (runSession stepTwilio initialSession
      [SessionEvent.start "MZ1" "CA1" true]).1.callId = some 1 ∧
    finalizeCount (runSession stepTwilio
      (runSession stepTwilio initialSession [SessionEvent.start "MZ1" "CA1" true]).1
      [SessionEvent.stop, SessionEvent.socketClose]).2 = 2 :=
  ⟨by decide,
   (C2_theorem (runSession stepTwilio initialSession
      [SessionEvent.start "MZ1" "CA1" true]).1 1 (by decide)).1⟩

/-- C9: in both handlers a provider media frame that arrives while the model
socket is absent or not in the open state is dropped: no append command is
emitted and the session state is unchanged, so nothing is queued. -/
theorem C9_theorem (s : SessionState) (p : Option String)
    (h : s.openaiWs ≠ some WsConnState.open_) :
    stepTwilio s (SessionEvent.media p) = (s, []) ∧
    stepExotel s (SessionEvent.media p) = (s, []) := by
  cases hw : s.openaiWs with
  | none => simp [stepTwilio, stepExotel]
  | some st => cases st <;> simp_all [stepTwilio, stepExotel]

/-- C9 witness: the dropped-frame theorem applied to the initial state, whose
model socket does not exist yet. -/
theorem C9_witness :
    initialSession.openaiWs ≠ some WsConnState.open_ ∧
    stepTwilio initialSession (SessionEvent.media (some "UklGR")) =
      (initialSession, []) :=
  ⟨by decide, (C9_theorem initialSession (some "UklGR") (by decide)).1⟩

/-- Booking arguments for a time the 09:00 to 17:00, 30 plus 10 configuration
never generates (16:40 is not on the 40-minute grid). -/
def argsLate : BookArgs :=
  { customer_name := "Alice", customer_phone := "+15550100", date := 4,
    time := "16:40", service := none, notes := none }

/-- C1: the claim says book_appointment re-validates the requested time
against fresh availability and never persists a time absent from it; the
handler bookAppointment performs no such re-check and happily persists a
confirmed appointment at 16:40 although current availability does not contain
16:40. -/
theorem C1_counterexample :
    ((checkAvailability_lib dbStd 1 4).slots.getD []).contains "16:40" = false ∧
    (bookAppointment_ws dbStd 1 (some 7) argsLate).2.success = some true ∧
    ((bookAppointment_ws dbStd 1 (some 7) argsLate).1.appointments.map
      (fun a => (a.scheduled_at, a.status))) = [(4 * 1440 + 1000, "confirmed")] := by
  refine ⟨by decide, by decide, by decide⟩

/-- C1 amended: the library booking service does re-validate: whenever the
requested time is not contained in a freshly computed availability result it
returns the explicit no-longer-available failure and leaves the store
unchanged, inserting nothing; the handler copy used by the relay performs no
re-validation (see the counterexample). -/
theorem C1_theorem (db : Database) (businessId : Nat) (args : BookArgs)
    (callId : Option Nat)
    (h : args.time ∉ (checkAvailability_lib db businessId args.date).slots.getD []) :
    bookAppointment_lib db businessId args callId =
      (db, { success := some false,
             error := some "This time slot is no longer available. Please choose another time." }) := by
  unfold bookAppointment_lib
  simp [h]

/-- C1 witness: the library refusal at the concrete 16:40 request. -/
theorem C1_witness :
    bookAppointment_lib dbStd 1 argsLate (some 7) =
      (dbStd, { success := some false,
                error := some "This time slot is no longer available. Please choose another time." }) :=
  C1_theorem dbStd 1 argsLate (some 7) (by decide)

/-- An existing customer of business 1 stored under an old name. -/
def custOld : Customer :=
  { id := 5, business_id := 1, phone := "+15550100", name := "Old Name" }

/-- A store in which that customer already exists. -/
def dbCust : Database :=
  { businesses := [bizStd], appointments := [], customers := [custOld],
    services := [], blackout_dates := [], calls := [], nextId := 100 }

/-- A booking for the same phone supplying a new name, at a valid slot time. -/
def argsNew : BookArgs :=
  { customer_name := "New Name", customer_phone := "+15550100", date := 4,
    time := "09:00", service := none, notes := none }

/-- C7: the claim says a booking whose phone matches an existing customer
updates the stored name when a new one is supplied; the handler bookAppointment
reuses the existing id and creates no duplicate, but it leaves the stored name
unchanged even though a new name was supplied. -/
theorem C7_counterexample :
    argsNew.customer_name = "New Name" ∧
    (bookAppointment_ws dbCust 1 none argsNew).1.customers =
      [{ id := 5, business_id := 1, phone := "+15550100", name := "Old Name" }] ∧
    ((bookAppointment_ws dbCust 1 none argsNew).1.appointments.map
      (fun a => a.customer_id)) = [some 5] := by
  refine ⟨by decide, by decide, by decide⟩

/-- C7 amended: in the library booking service the claim holds in full: a
matching customer is reused (no duplicate row, the inserted appointment points
at the existing id) and the stored name is refreshed whenever a non-empty name
is supplied; when no customer matches, a new customer keyed by the business id
and phone is created.  The handler copy reuses the id but never refreshes the
name (see the counterexample). -/
theorem C7_theorem (db : Database) (businessId : Nat) (args : BookArgs)
    (callId : Option Nat)
    (h : args.time ∈ (checkAvailability_lib db businessId args.date).slots.getD []) :
    (∀ cust,
      db.customers.find? (fun c =>
        c.business_id == businessId && c.phone == args.customer_phone) = some cust →
      (bookAppointment_lib db businessId args callId).1.customers.length =
        db.customers.length ∧
      (args.customer_name ≠ "" →
        (bookAppointment_lib db businessId args callId).1.customers =
          db.customers.map (fun x =>
            if x.id == cust.id then { x with name := args.customer_name } else x)) ∧
      (∃ appt,
        (bookAppointment_lib db businessId args callId).1.appointments =
          db.appointments ++ [appt] ∧
        appt.customer_id = some cust.id)) ∧
    (db.customers.find? (fun c =>
        c.business_id == businessId && c.phone == args.customer_phone) = none →
      ∃ newC,
        (bookAppointment_lib db businessId args callId).1.customers =
          db.customers ++ [newC] ∧
        newC.business_id = businessId ∧ newC.phone = args.customer_phone ∧
        newC.name = args.customer_name ∧
        (∃ appt,
          (bookAppointment_lib db businessId args callId).1.appointments =
            db.appointments ++ [appt] ∧
          appt.customer_id = some newC.id)) := by
  rw [bookAppointment_lib_of_mem db businessId args callId h]
  constructor
  · intro cust hc
    by_cases hn : args.customer_name = ""
    · refine ⟨?_, fun hn2 => absurd hn hn2, ?_⟩
      · simp [bookAppointmentInsert_lib, hc, hn]
      · simp [bookAppointmentInsert_lib, hc, hn]
    · refine ⟨?_, fun _ => ?_, ?_⟩
      · simp [bookAppointmentInsert_lib, hc, hn]
      · simp [bookAppointmentInsert_lib, hc, hn]
      · simp [bookAppointmentInsert_lib, hc, hn]
  · intro hc
    simp [bookAppointmentInsert_lib, hc]

/-- C7 witness: the library theorem applied to the store holding the customer
under the old name, with a valid slot time and a new non-empty name. -/
theorem C7_witness :
    (bookAppointment_lib dbCust 1 argsNew none).1.customers.length =
      dbCust.customers.length ∧
    (bookAppointment_lib dbCust 1 argsNew none).1.customers =
      dbCust.customers.map (fun x =>
        if x.id == custOld.id then { x with name := argsNew.customer_name } else x) := by
  have h := (C7_theorem dbCust 1 argsNew none (by decide)).1 custOld (by decide)
  exact ⟨h.1, h.2.1 (by decide)⟩

/-- A service of business 1 whose name contains the search fragment. -/
def svcCut : Service :=
  { id := 9, business_id := 1, name := "Haircut", duration_minutes := some 45 }

/-- A store holding that service. -/
def dbSvc : Database :=
  { businesses := [bizStd], appointments := [], customers := [], services := [svcCut],
    blackout_dates := [], calls := [], nextId := 100 }

/-- A booking that names a service by a lowercase fragment of its name. -/
def argsSvc : BookArgs :=
  { customer_name := "Bob", customer_phone := "+15550111", date := 4,
    time := "09:40", service := some "hair", notes := none }

/-- C8: the claim says the booking resolves the optional service by fuzzy
match and persists the tenant slot duration; the handler bookAppointment
ignores the service argument entirely and writes no duration column, so the
persisted row has neither the tenant slot duration (30 here) nor a service
reference. -/
theorem C8_counterexample :
    bizStd.slot_duration_minutes = some 30 ∧
    (bookAppointment_ws dbSvc 1 none argsSvc).2.success = some true ∧
    ((bookAppointment_ws dbSvc 1 none argsSvc).1.appointments.map
      (fun a => (a.duration_minutes, a.service_id))) = [(none, none)] := by
  refine ⟨by decide, by decide, by decide⟩

/-- C8 amended: in the library booking service the claim holds: the optional
service is resolved by the case-insensitive substring match of the ilike query
and the inserted appointment always carries the tenant configured slot
duration, whatever the service argument resolved to.  The handler copy ignores
the service and stores no duration (see the counterexample). -/
theorem C8_theorem (db : Database) (businessId : Nat) (args : BookArgs)
    (callId : Option Nat) (biz : Business) (d : Nat)
    (h : args.time ∈ (checkAvailability_lib db businessId args.date).slots.getD [])
    (hb : findBusiness db businessId = some biz)
    (hd : biz.slot_duration_minutes = some d) (hd0 : d ≠ 0) :
    ∃ appt,
      (bookAppointment_lib db businessId args callId).1.appointments =
        db.appointments ++ [appt] ∧
      appt.duration_minutes = some d ∧
      appt.service_id = fuzzyServiceId db.services businessId args.service := by
  have hb2 : db.businesses.find? (fun b => b.id == businessId) = some biz := by
    simpa [findBusiness] using hb
  have hdur : jsOrNat ((db.businesses.find? (fun b => b.id == businessId)).bind
      (fun b => b.slot_duration_minutes)) 30 = d := by
    simp [hb2, hd, jsOrNat, hd0]
  rw [bookAppointment_lib_of_mem db businessId args callId h]
  rcases hfc : db.customers.find? (fun c =>
      c.business_id == businessId && c.phone == args.customer_phone) with _ | cust
  · simp [bookAppointmentInsert_lib, hfc, findBusiness, hdur]
  · by_cases hn : args.customer_name = ""
    · simp [bookAppointmentInsert_lib, hfc, hn, findBusiness, hdur]
    · simp [bookAppointmentInsert_lib, hfc, hn, findBusiness, hdur]

/-- C8 witness: the library theorem applied to the store with the Haircut
service, plus the concrete fuzzy resolution of the fragment hair to it. -/
theorem C8_witness :
    (∃ appt,
      (bookAppointment_lib dbSvc 1 argsSvc none).1.appointments =
        dbSvc.appointments ++ [appt] ∧
      appt.duration_minutes = some 30 ∧
      appt.service_id = fuzzyServiceId dbSvc.services 1 argsSvc.service) ∧
    fuzzyServiceId dbSvc.services 1 argsSvc.service = some 9 :=
  ⟨C8_theorem dbSvc 1 argsSvc none bizStd 30 (by decide) (by decide) (by decide)
    (by decide), by decide⟩

/-- Every minute value kept by the slot loop passed the conflict test against
every appointment of the list, whatever the fuel. -/
theorem slotWalk_no_conflict (slotDuration buffer endMinutes dayBase : Nat)
    (appts : List Appointment) :
    ∀ (fuel current m : Nat),
      m ∈ slotWalk fuel slotDuration buffer endMinutes dayBase appts current →
      ∀ a ∈ appts,
        slotConflicts (dayBase + m) (dayBase + m + slotDuration) a = false := by
  intro fuel
  induction fuel with
  | zero =>
    intro current m hm
    simp [slotWalk] at hm
  | succ f ih =>
    intro current m hm a ha
    simp only [slotWalk] at hm
    split at hm
    · split at hm
      · exact ih _ _ hm a ha
      · rcases List.mem_cons.mp hm with rfl | hmem
        · next hconf =>
            have hfa := List.any_eq_false.mp (Bool.of_not_eq_true hconf)
            exact Bool.of_not_eq_true (hfa a ha)
        · exact ih _ _ hmem a ha
    · simp at hm

/-- C5: every slot generated for a date does not overlap, as half-open
intervals, any appointment fetched for that date with status confirmed or
pending: conflicting candidates are rejected from the slot list. -/
theorem C5_theorem (db : Database) (businessId date : Nat) (business : Business)
    (dayHours : DayHours) (m : Nat) (a : Appointment)
    (hm : m ∈ slotMinutesFor db businessId date business dayHours)
    (ha : a ∈ apptsForDay db businessId date) :
    ¬(date * 1440 + m < a.scheduled_at + jsOrNat a.duration_minutes 30 ∧
      date * 1440 + m + jsOrNat business.slot_duration_minutes 30 > a.scheduled_at) := by
  simp only [slotMinutesFor] at hm
  have hfa := slotWalk_no_conflict (jsOrNat business.slot_duration_minutes 30)
    (jsOrNat business.buffer_minutes 10) (clockToMinutes dayHours.end_) (date * 1440)
    (apptsForDay db businessId date) _ _ _ hm a ha
  simp only [slotConflicts, Bool.and_eq_false_iff, decide_eq_false_iff_not] at hfa
  intro hc
  rcases hfa with hfa | hfa
  · exact hfa hc.1
  · exact hfa hc.2

/-- An appointment of business 1 on day 4 from 10:00 to 10:30. -/
def apptTen : Appointment :=
  { id := 3, business_id := 1, customer_id := none, service_id := none, call_id := none,
    customer_name := "Cara", customer_phone := "+15550122",
    scheduled_at := 4 * 1440 + 600, duration_minutes := some 30,
    status := "confirmed", notes := none }

/-- A store holding the standard business and that appointment. -/
def dbBusy : Database :=
  { businesses := [bizStd], appointments := [apptTen], customers := [], services := [],
    blackout_dates := [], calls := [], nextId := 100 }

/-- C5 witness: the non-overlap theorem applied to the 09:00 slot generated
next to the 10:00 appointment. -/
theorem C5_witness :
    540 ∈ slotMinutesFor dbBusy 1 4 bizStd hoursMonFull ∧
    apptTen ∈ apptsForDay dbBusy 1 4 ∧
    ¬(4 * 1440 + 540 < apptTen.scheduled_at + jsOrNat apptTen.duration_minutes 30 ∧
      4 * 1440 + 540 + jsOrNat bizStd.slot_duration_minutes 30 > apptTen.scheduled_at) :=
  ⟨by decide, by decide,
   C5_theorem dbBusy 1 4 bizStd hoursMonFull 540 apptTen (by decide) (by decide)⟩

/-- The update of one row by the cancellation query leaves rows that do not
match the filter unchanged and sets the status of matching rows. -/
theorem map_cancel_of_no_match (p : Appointment → Bool) (l : List Appointment)
    (h : ∀ a ∈ l, p a = false) :
    l.map (fun a => if p a then { a with status := "cancelled" } else a) = l := by
  induction l with
  | nil => rfl
  | cons x xs ih =>
    have hx := h x (by simp)
    simp only [List.map_cons, hx, Bool.false_eq_true, if_false]
    rw [ih (fun a ha => h a (by simp [ha]))]

/-- C6: in the handler cancellation, zero matching confirmed appointments
yields an explicit failure with the nothing-found message and an unchanged
store, never a success with count zero; one or more matches sets each matched
appointment to cancelled, keeps the rest, and reports the count; a success
result always carries a positive count.  The library copy likewise fails on
zero matches. -/
theorem C6_theorem (db : Database) (businessId : Nat) (args : CancelArgs) :
    ((db.appointments.filter (cancelMatches businessId args)).length = 0 →
      (cancelAppointment_ws db businessId args).2 =
        { success := some false, message := some "No appointment found to cancel" } ∧
      (cancelAppointment_ws db businessId args).1 = db) ∧
    ((db.appointments.filter (cancelMatches businessId args)).length ≠ 0 →
      (cancelAppointment_ws db businessId args).2.success = some true ∧
      (cancelAppointment_ws db businessId args).2.cancelled_count =
        some (db.appointments.filter (cancelMatches businessId args)).length ∧
      (∀ a ∈ db.appointments, cancelMatches businessId args a = true →
        { a with status := "cancelled" } ∈
          (cancelAppointment_ws db businessId args).1.appointments) ∧
      (∀ a ∈ db.appointments, cancelMatches businessId args a = false →
        a ∈ (cancelAppointment_ws db businessId args).1.appointments)) ∧
    ((cancelAppointment_ws db businessId args).2.success = some true →
      ∃ n, (cancelAppointment_ws db businessId args).2.cancelled_count = some n ∧ 0 < n) ∧
    (args.customer_phone ≠ "" →
      (db.appointments.filter (cancelMatches businessId args)).length = 0 →
      (cancelAppointment_lib db businessId args).2.success = some false) := by
  by_cases h0 : (db.appointments.filter (cancelMatches businessId args)).length = 0
  · have hnil : db.appointments.filter (cancelMatches businessId args) = [] :=
      List.length_eq_zero.mp h0
    have hno : ∀ a ∈ db.appointments, cancelMatches businessId args a = false := by
      intro a ha
      by_contra hcon
      have : a ∈ db.appointments.filter (cancelMatches businessId args) :=
        List.mem_filter.mpr ⟨ha, by simpa using hcon⟩
      simp [hnil] at this
    refine ⟨fun _ => ?_, fun hne => absurd h0 hne, ?_, fun hph _ => ?_⟩
    · constructor
      · simp [cancelAppointment_ws, h0]
      · have hmap := map_cancel_of_no_match (cancelMatches businessId args)
          db.appointments hno
        simp [cancelAppointment_ws, h0, hmap]
    · intro hs
      exfalso
      simp [cancelAppointment_ws, h0] at hs
    · simp [cancelAppointment_lib, hph, h0]
  · refine ⟨fun hz => absurd hz h0, fun _ => ⟨?_, ?_, ?_, ?_⟩, ?_, fun _ hz => absurd hz h0⟩
    · simp [cancelAppointment_ws, h0]
    · simp [cancelAppointment_ws, h0]
    · intro a ha hmatch
      simp only [cancelAppointment_ws, h0, if_false]
      have : ({ a with status := "cancelled" } : Appointment) =
          (fun a => if cancelMatches businessId args a then
            { a with status := "cancelled" } else a) a := by
        simp [hmatch]
      rw [this]
      exact List.mem_map_of_mem _ ha
    · intro a ha hmatch
      simp only [cancelAppointment_ws, h0, if_false]
      have : a = (fun a => if cancelMatches businessId args a then
          { a with status := "cancelled" } else a) a := by
        simp [hmatch]
      rw [this]
      exact List.mem_map_of_mem _ ha
    · intro _
      refine ⟨(db.appointments.filter (cancelMatches businessId args)).length, ?_, ?_⟩
      · simp [cancelAppointment_ws, h0]
      · exact Nat.pos_of_ne_zero h0

/-- A confirmed appointment of business 1 cancellable by phone. -/
def apptCancel : Appointment :=
  { id := 4, business_id := 1, customer_id := none, service_id := none, call_id := none,
    customer_name := "Dana", customer_phone := "+15550133",
    scheduled_at := 4 * 1440 + 660, duration_minutes := some 30,
    status := "confirmed", notes := none }

/-- A store holding that appointment. -/
def dbCancel : Database :=
  { businesses := [bizStd], appointments := [apptCancel], customers := [], services := [],
    blackout_dates := [], calls := [], nextId := 100 }

/-- The cancellation request matching it. -/
def argsCancel : CancelArgs := { customer_phone := "+15550133", date := some 4 }

/-- C6 witness: the cancellation theorem applied to the store with exactly one
matching confirmed appointment. -/
theorem C6_witness :
    (cancelAppointment_ws dbCancel 1 argsCancel).2.success = some true ∧
    (cancelAppointment_ws dbCancel 1 argsCancel).2.cancelled_count = some 1 := by
  have h := (C6_theorem dbCancel 1 argsCancel).2.1 (by decide)
  refine ⟨h.1, ?_⟩
  rw [h.2.1]
  decide

/-- The empty argument object. -/
def rawArgsEmpty : RawArgs := {}

/-- C10: the dispatcher always returns a plain result and never raises: every
branch of the switch produces an ok value, an unrecognized tool name yields
the explicit unknown-tool error object, and when the availability body throws
the surrounding catch converts the exception into the failure result object. -/
theorem C10_theorem :
    (∀ (db : Database) (businessId : Nat) (callId : Option Nat) (toolName : String)
      (args : RawArgs),
      ∃ r, handleToolCall db businessId callId toolName args = Except.ok r) ∧
    (∀ (db : Database) (businessId : Nat) (callId : Option Nat) (toolName : String)
      (args : RawArgs),
      toolName ≠ "check_availability" → toolName ≠ "book_appointment" →
      toolName ≠ "cancel_appointment" → toolName ≠ "transfer_to_human" →
      handleToolCall db businessId callId toolName args =
        Except.ok (db, { error := some "Unknown tool" })) ∧
    (∀ (db : Database) (businessId date : Nat) (e : String),
      checkAvailabilityBody_ws db businessId date = Except.error e →
      checkAvailability_ws db businessId date =
        { error := some "Failed to check availability" }) := by
  refine ⟨?_, ?_, ?_⟩
  · intro db b c n a
    by_cases h1 : n = "check_availability" <;> by_cases h2 : n = "book_appointment" <;>
      by_cases h3 : n = "cancel_appointment" <;> by_cases h4 : n = "transfer_to_human" <;>
      simp [handleToolCall, h1, h2, h3, h4]
  · intro db b c n a h1 h2 h3 h4
    simp [handleToolCall, h1, h2, h3, h4]
  · intro db b d e he
    simp [checkAvailability_ws, he]

/-- C10 witness: the dispatcher theorem applied to an unknown tool name and to
a date on which the availability body provably throws. -/
theorem C10_witness :
    handleToolCall dbStd 1 none "reschedule_appointment" rawArgsEmpty =
      Except.ok (dbStd, { error := some "Unknown tool" }) ∧
    checkAvailability_ws dbStd 1 5 = { error := some "Failed to check availability" } :=
  ⟨C10_theorem.2.1 dbStd 1 none "reschedule_appointment" rawArgsEmpty
    (by decide) (by decide) (by decide) (by decide),
   C10_theorem.2.2 dbStd 1 5 "RangeError: invalid value for option weekday" (by rfl)⟩

end AiAssistant
